import Mathlib

/-!
Verification development for the Business-travel-emissions-tracker
(`src/main.py`).  The core of the program is embedded shallowly:

* Python `round(x, 2)` (banker's rounding, round-half-to-even) is modelled
  exactly over `ℚ` by `pyRound2` (and over `ℝ` by `pyRound2R` for the
  geometric part).
* The haversine distance (`haversine_distance`, `calculate_distance`) is
  modelled over `ℝ`, with the fixed `CITY_COORDINATES` registry over `ℚ`.
* The factor dictionaries `EMISSION_FACTORS`, `HOTEL_EMISSION_FACTORS`,
  `MEAL_EMISSION_FACTORS` become total functions `String → Option _`
  (`none` = Python `KeyError`).
* The "Calculate Emissions" button handler (lines 405-479 of the source)
  becomes the fallible pure functions `calcTransport`, `calcAccommodation`,
  `calcMeals`, `computeCalculation` (the computation phase, lines 407-448,
  where any dictionary miss or zero division aborts with `none`) followed by
  the infallible state update `applyCalc` (lines 451-473) acting on
  `SessionState` (the `st.session_state` ledger).  A Python exception in the
  computation phase is modelled as `none` of the whole submission, faithful
  to the source where every fallible operation precedes the first
  session-state mutation.
* Timestamps and the caller-supplied metadata are opaque strings.
-/

namespace EmissionsTracker

/-- Round-half-to-even to an integer, the semantics of Python `round`
on exact values (modelled over `ℚ`). -/
def pyRoundInt (x : ℚ) : ℤ :=
  if x - ⌊x⌋ < 1/2 then ⌊x⌋
  else if 1/2 < x - ⌊x⌋ then ⌊x⌋ + 1
  else if ⌊x⌋ % 2 = 0 then ⌊x⌋ else ⌊x⌋ + 1

/-- Python `round(x, 2)` over `ℚ`. -/
def pyRound2 (x : ℚ) : ℚ := (pyRoundInt (x * 100) : ℚ) / 100

/-- Round-half-to-even to an integer over `ℝ` (for the geometric part). -/
noncomputable def pyRoundIntR (x : ℝ) : ℤ :=
  if x - ⌊x⌋ < 1/2 then ⌊x⌋
  else if 1/2 < x - ⌊x⌋ then ⌊x⌋ + 1
  else if ⌊x⌋ % 2 = 0 then ⌊x⌋ else ⌊x⌋ + 1

/-- Python `round(x, 2)` over `ℝ`. -/
noncomputable def pyRound2R (x : ℝ) : ℝ := (pyRoundIntR (x * 100) : ℝ) / 100

/-- Python `math.radians`. -/
noncomputable def radians (x : ℝ) : ℝ := x * (Real.pi / 180)

/-- `haversine_distance` of `src/main.py` lines 21-35: great-circle distance
in km between two points given in decimal degrees (earth radius 6371 km). -/
noncomputable def haversine_distance (lat1 lon1 lat2 lon2 : ℝ) : ℝ :=
  2 * Real.arcsin (Real.sqrt
      (Real.sin ((radians lat2 - radians lat1) / 2) ^ 2 +
        Real.cos (radians lat1) * Real.cos (radians lat2) *
          Real.sin ((radians lon2 - radians lon1) / 2) ^ 2)) * 6371

/-- The fixed `CITY_COORDINATES` dictionary (lines 38-59), as a lookup
returning `none` for a missing key. -/
def CITY_COORDINATES (city : String) : Option (ℚ × ℚ) :=
  if city = "VELLORE" then some (12.9165, 79.1325)
  else if city = "CHENNAI" then some (13.0827, 80.2707)
  else if city = "DELHI" then some (28.6139, 77.2090)
  else if city = "MUMBAI" then some (19.0760, 72.8777)
  else if city = "LONDON" then some (51.5074, -0.1278)
  else if city = "NEW YORK" then some (40.7128, -74.0060)
  else if city = "AHMEDABAD" then some (23.0225, 72.5714)
  else if city = "BENGALURU" then some (12.9716, 77.5946)
  else if city = "HYDERABAD" then some (17.3850, 78.4867)
  else if city = "KOLKATA" then some (22.5726, 88.3639)
  else if city = "DUBAI" then some (25.276987, 55.296249)
  else if city = "PARIS" then some (48.8566, 2.3522)
  else if city = "TOKYO" then some (35.6762, 139.6503)
  else if city = "SYDNEY" then some (-33.8688, 151.2093)
  else if city = "SINGAPORE" then some (1.3521, 103.8198)
  else if city = "HONG KONG" then some (22.3193, 114.1694)
  else if city = "SAN FRANCISCO" then some (37.7749, -122.4194)
  else if city = "BERLIN" then some (52.5200, 13.4050)
  else if city = "TORONTO" then some (43.6532, -79.3832)
  else if city = "CAIRO" then some (30.0444, 31.2357)
  else none

/-- `calculate_distance` (lines 131-138): haversine distance rounded to two
decimals when both cities are present in the registry, `0` otherwise. -/
noncomputable def calculate_distance (from_city to_city : String) : ℝ :=
  match CITY_COORDINATES from_city, CITY_COORDINATES to_city with
  | some coord1, some coord2 =>
      pyRound2R (haversine_distance (coord1.1 : ℝ) (coord1.2 : ℝ)
        (coord2.1 : ℝ) (coord2.2 : ℝ))
  | _, _ => 0

/-- A value of the `EMISSION_FACTORS` dictionary (lines 62-88): either a flat
per-km factor or a three-band flight table. -/
inductive ModeFactor where
  | flat (factor : ℚ)
  | tiered (short_haul medium_haul long_haul : ℚ)
deriving DecidableEq

/-- The `EMISSION_FACTORS` dictionary (lines 62-88). -/
def EMISSION_FACTORS (mode : String) : Option ModeFactor :=
  if mode = "FLIGHT - ECONOMY" then some (ModeFactor.tiered 0.15 0.12 0.09)
  else if mode = "FLIGHT - BUSINESS" then some (ModeFactor.tiered 0.30 0.24 0.18)
  else if mode = "FLIGHT - FIRST" then some (ModeFactor.tiered 0.45 0.36 0.27)
  else if mode = "TRAIN - STANDARD" then some (ModeFactor.flat 0.035)
  else if mode = "TRAIN - HIGH SPEED" then some (ModeFactor.flat 0.05)
  else if mode = "BUS - STANDARD" then some (ModeFactor.flat 0.04)
  else if mode = "BUS - COACH" then some (ModeFactor.flat 0.03)
  else if mode = "CAR - GASOLINE" then some (ModeFactor.flat 0.12)
  else if mode = "CAR - DIESEL" then some (ModeFactor.flat 0.14)
  else if mode = "CAR - HYBRID" then some (ModeFactor.flat 0.08)
  else if mode = "CAR - ELECTRIC" then some (ModeFactor.flat 0.05)
  else if mode = "TAXI" then some (ModeFactor.flat 0.15)
  else if mode = "FERRY" then some (ModeFactor.flat 0.19)
  else none

/-- The `HOTEL_EMISSION_FACTORS` dictionary (lines 91-95). -/
def HOTEL_EMISSION_FACTORS (hotel_type : String) : Option ℚ :=
  if hotel_type = "BUDGET" then some 15.0
  else if hotel_type = "MID-RANGE" then some 25.0
  else if hotel_type = "LUXURY" then some 40.0
  else none

/-- The `MEAL_EMISSION_FACTORS` dictionary (lines 98-102). -/
def MEAL_EMISSION_FACTORS (category : String) : Option ℚ :=
  if category = "VEGAN" then some 1.5
  else if category = "VEGETARIAN" then some 2.5
  else if category = "OMNIVORE" then some 4.0
  else none

/-- Indexing one of the nested band dictionaries by category name. -/
def bandGet (s m l : ℚ) (category : String) : Option ℚ :=
  if category = "short_haul" then some s
  else if category = "medium_haul" then some m
  else if category = "long_haul" then some l
  else none

/-- `EMISSION_FACTORS[mode][category]` for a tiered entry
(`none` models the `KeyError`/`TypeError` of any other access). -/
def tieredLookup (mode : String) (category : String) : Option ℚ :=
  match EMISSION_FACTORS mode with
  | some (ModeFactor.tiered s m l) => bandGet s m l category
  | _ => none

/-- The `category` computation of `get_flight_emission_factor`
(lines 117-122). -/
def bandOf (distance : ℚ) : String :=
  if distance < 800 then "short_haul"
  else if distance < 3700 then "medium_haul"
  else "long_haul"

/-- `get_flight_emission_factor` (lines 113-129): select the band by
distance, then the class-specific factor; any class other than economy and
business falls through to the `FLIGHT - FIRST` table. -/
def get_flight_emission_factor (distance : ℚ) (travel_class : String) : Option ℚ :=
  if travel_class = "FLIGHT - ECONOMY" then
    tieredLookup "FLIGHT - ECONOMY" (bandOf distance)
  else if travel_class = "FLIGHT - BUSINESS" then
    tieredLookup "FLIGHT - BUSINESS" (bandOf distance)
  else
    tieredLookup "FLIGHT - FIRST" (bandOf distance)

/-- The class-dispatch of lines 124-129 applied to an arbitrary category, so
that the band actually used by `get_flight_emission_factor` can be named. -/
def flight_class_bands (travel_class : String) (category : String) : Option ℚ :=
  if travel_class = "FLIGHT - ECONOMY" then tieredLookup "FLIGHT - ECONOMY" category
  else if travel_class = "FLIGHT - BUSINESS" then tieredLookup "FLIGHT - BUSINESS" category
  else tieredLookup "FLIGHT - FIRST" category

/-- The factor selection of the handler (lines 413-417):
`travel_mode.startswith("FLIGHT")` dispatches to
`get_flight_emission_factor`, otherwise `EMISSION_FACTORS[travel_mode]`
(a flat factor; a missing key is a `KeyError`, i.e. `none`). -/
def resolve_emission_factor (travel_mode : String) (distance : ℚ) : Option ℚ :=
  if travel_mode.data.take 6 = "FLIGHT".data then
    get_flight_emission_factor distance travel_mode
  else
    match EMISSION_FACTORS travel_mode with
    | some (ModeFactor.flat f) => some f
    | _ => none

/-- One element of `trip_data` (line 318):
`(from_city, to_city, travel_mode, passengers, trip_distance)`. -/
structure Trip where
  from_city : String
  to_city : String
  mode : String
  passengers : ℕ
  distance : ℚ
deriving DecidableEq

/-- One element of `trip_details` (lines 422-428). -/
structure TripDetail where
  from_city : String
  to_city : String
  mode : String
  distance : ℚ
  emission : ℚ
deriving DecidableEq

/-- One element of `stay_data` (line 341): `(location, hotel_type, nights)`. -/
structure Stay where
  location : String
  hotel_type : String
  nights : ℕ
deriving DecidableEq

/-- One element of `meal_data` (line 353):
`(breakfast, lunch, dinner, nights)`. -/
structure MealDay where
  breakfast : String
  lunch : String
  dinner : String
  nights : ℕ
deriving DecidableEq

/-- The three input lists consumed by the handler. -/
structure Input where
  trips : List Trip
  stays : List Stay
  meals : List MealDay
deriving DecidableEq

/-- The caller-supplied metadata of an entry (opaque to the calculator). -/
structure Meta where
  employee_id : String
  employee_name : String
  department : String
  travel_purpose : String
  start_date : String
  end_date : String
deriving DecidableEq

/-- The outcome of the computation phase of one submission. -/
structure CalcResult where
  transport : ℚ
  accommodation : ℚ
  meal : ℚ
  total : ℚ
  details : List TripDetail
deriving DecidableEq

/-- One row of `st.session_state.emissions_data` (lines 457-469). -/
structure Entry where
  employee_id : String
  employee_name : String
  department : String
  travel_purpose : String
  start_date : String
  end_date : String
  transport : ℚ
  accommodation : ℚ
  meal : ℚ
  total : ℚ
  timestamp : String
deriving DecidableEq

/-- The ledger-relevant fields of `st.session_state` (lines 105-111). -/
structure SessionState where
  emissions_data : List Entry
  total_emissions : ℚ
  trip_details : List TripDetail
  transport_emissions : ℚ
  accommodation_emissions : ℚ
  meal_emissions : ℚ
deriving DecidableEq

/-- Line 419: `trip_emission = round((distance * emission_factor) / passengers, 2)`.
A passenger count of `0` is Python's `ZeroDivisionError`, i.e. `none`. -/
def trip_emission (distance factor : ℚ) (passengers : ℕ) : Option ℚ :=
  if passengers = 0 then none
  else some (pyRound2 (distance * factor / (passengers : ℚ)))

/-- The `trip_details.append` dictionary of lines 422-428. -/
def mkDetail (t : Trip) (e : ℚ) : TripDetail :=
  ⟨t.from_city, t.to_city, t.mode, t.distance, e⟩

/-- The transport loop of the handler (lines 413-428): resolve the factor,
compute the rounded per-leg emission, accumulate the subtotal and the
itemized detail list; any failure aborts the whole computation. -/
def calcTransport : List Trip → Option (ℚ × List TripDetail)
  | [] => some (0, [])
  | t :: ts =>
    match resolve_emission_factor t.mode t.distance with
    | none => none
    | some f =>
      match trip_emission t.distance f t.passengers with
      | none => none
      | some e =>
        match calcTransport ts with
        | none => none
        | some (rest, dets) => some (e + rest, mkDetail t e :: dets)

/-- The accommodation loop of the handler (lines 431-433):
`HOTEL_EMISSION_FACTORS[hotel_type] * nights`, accumulated unrounded. -/
def calcAccommodation : List Stay → Option ℚ
  | [] => some 0
  | s :: rest =>
    match HOTEL_EMISSION_FACTORS s.hotel_type with
    | none => none
    | some f =>
      match calcAccommodation rest with
      | none => none
      | some a => some (f * (s.nights : ℚ) + a)

/-- One `if meal != "None": daily += MEAL_EMISSION_FACTORS[meal]` step
(lines 438-443). -/
def addMealFactor (acc : ℚ) (choice : String) : Option ℚ :=
  if choice = "None" then some acc
  else
    match MEAL_EMISSION_FACTORS choice with
    | none => none
    | some f => some (acc + f)

/-- `daily_meal_emission` for one stay (lines 437-443). -/
def daily_meal_emission (breakfast lunch dinner : String) : Option ℚ :=
  match addMealFactor 0 breakfast with
  | none => none
  | some x =>
    match addMealFactor x lunch with
    | none => none
    | some y => addMealFactor y dinner

/-- The meal loop of the handler (lines 436-445):
`meal_emissions += daily_meal_emission * nights`, accumulated unrounded. -/
def calcMeals : List MealDay → Option ℚ
  | [] => some 0
  | md :: rest =>
    match daily_meal_emission md.breakfast md.lunch md.dinner with
    | none => none
    | some dm =>
      match calcMeals rest with
      | none => none
      | some m => some (dm * (md.nights : ℚ) + m)

/-- The computation phase of one submission (lines 407-448): the three
subtotals, their unrounded grand total (line 448), and the itemized legs. -/
def computeCalculation (inp : Input) : Option CalcResult :=
  match calcTransport inp.trips with
  | none => none
  | some (t, dets) =>
    match calcAccommodation inp.stays with
    | none => none
    | some a =>
      match calcMeals inp.meals with
      | none => none
      | some m => some ⟨t, a, m, t + a + m, dets⟩

/-- The `entry` dictionary of lines 457-469: metadata passed through
verbatim, the three subtotals and the grand total each rounded to two
decimals, plus a timestamp. -/
def mkEntry (meta : Meta) (c : CalcResult) (ts : String) : Entry :=
  ⟨meta.employee_id, meta.employee_name, meta.department, meta.travel_purpose,
    meta.start_date, meta.end_date,
    pyRound2 c.transport, pyRound2 c.accommodation, pyRound2 c.meal,
    pyRound2 c.total, ts⟩

/-- The session-state update of lines 451-473: replace the four
"most recent" fields, append the entry, and add the unrounded grand total
to the running total. -/
def applyCalc (s : SessionState) (c : CalcResult) (meta : Meta) (ts : String) :
    SessionState :=
  ⟨s.emissions_data ++ [mkEntry meta c ts],
    s.total_emissions + c.total,
    c.details, c.transport, c.accommodation, c.meal⟩

/-- The whole "Calculate Emissions" handler: the computation phase followed,
on success only, by the state update.  In the source every fallible
operation (lines 413-445) precedes the first mutation (line 451), so an
exception leaves the session state untouched. -/
def calcHandler (s : SessionState) (inp : Input) (meta : Meta) (ts : String) :
    Option SessionState :=
  match computeCalculation inp with
  | none => none
  | some c => some (applyCalc s c meta ts)

/-- The initial session state (lines 105-111). -/
def initState : SessionState := ⟨[], 0, [], 0, 0, 0⟩

/-- Repeated submissions: run the handler over a list of
(input, metadata, timestamp) triples, propagating failure. -/
def runCalcs : SessionState → List (Input × Meta × String) → Option SessionState
  | s, [] => some s
  | s, (inp, m, ts) :: rest =>
    match calcHandler s inp m ts with
    | none => none
    | some s1 => runCalcs s1 rest

/-- The ledger entries a list of submissions is expected to append, in
submission order (specification-side description of the history). -/
def expectedEntries : List (Input × Meta × String) → List Entry
  | [] => []
  | (inp, m, ts) :: rest =>
    match computeCalculation inp with
    | some c => mkEntry m c ts :: expectedEntries rest
    | none => expectedEntries rest

/-- A rational that is an exact whole number of hundredths (the form every
rounded-to-2-decimals value, and every factor-table product, takes in exact
arithmetic). -/
def isCent (q : ℚ) : Prop := ∃ k : ℤ, q = (k : ℚ) / 100

theorem isCent_zero : isCent 0 := ⟨0, by norm_num⟩

theorem isCent_add {a b : ℚ} (ha : isCent a) (hb : isCent b) : isCent (a + b) := by
  obtain ⟨ka, rfl⟩ := ha
  obtain ⟨kb, rfl⟩ := hb
  exact ⟨ka + kb, by push_cast; ring⟩

theorem isCent_natMul {a : ℚ} (ha : isCent a) (n : ℕ) : isCent (a * (n : ℚ)) := by
  obtain ⟨k, rfl⟩ := ha
  exact ⟨k * n, by push_cast; ring⟩

theorem pyRoundInt_intCast (k : ℤ) : pyRoundInt (k : ℚ) = k := by
  unfold pyRoundInt
  rw [Int.floor_intCast]
  norm_num

theorem isCent_pyRound2 (x : ℚ) : isCent (pyRound2 x) := ⟨pyRoundInt (x * 100), rfl⟩

theorem pyRound2_eq_self {q : ℚ} (h : isCent q) : pyRound2 q = q := by
  obtain ⟨k, rfl⟩ := h
  unfold pyRound2
  have h100 : ((k : ℚ) / 100) * 100 = (k : ℚ) := by field_simp
  rw [h100, pyRoundInt_intCast]


theorem trip_emission_isCent {d f : ℚ} {p : ℕ} {e : ℚ}
    (h : trip_emission d f p = some e) : isCent e := by
  unfold trip_emission at h
  split at h
  · exact absurd h (by simp)
  · rw [Option.some_inj] at h
    exact h ▸ isCent_pyRound2 _

/-- The transport loop: the subtotal is exactly the sum of the recorded
(already rounded) per-leg emissions, and it is a whole number of cents. -/
theorem calcTransport_spec :
    ∀ {trips : List Trip} {t : ℚ} {dets : List TripDetail},
      calcTransport trips = some (t, dets) →
      isCent t ∧ t = (dets.map TripDetail.emission).sum := by
  intro trips
  induction trips with
  | nil =>
    intro t dets h
    unfold calcTransport at h
    rw [Option.some_inj, Prod.mk.injEq] at h
    obtain ⟨h1, h2⟩ := h
    subst h1
    subst h2
    exact ⟨isCent_zero, by simp⟩
  | cons tr rest ih =>
    intro t dets h
    unfold calcTransport at h
    split at h
    · exact absurd h (by simp)
    · next f hf =>
      split at h
      · exact absurd h (by simp)
      · next e he =>
        split at h
        · exact absurd h (by simp)
        · next pr hrest =>
          rw [Option.some_inj, Prod.mk.injEq] at h
          obtain ⟨h1, h2⟩ := h
          obtain ⟨hc, hs⟩ := ih hrest
          subst h1
          subst h2
          refine ⟨isCent_add (trip_emission_isCent he) hc, ?_⟩
          simp [mkDetail, hs]

theorem hotel_factor_isCent {ht : String} {f : ℚ}
    (h : HOTEL_EMISSION_FACTORS ht = some f) : isCent f := by
  unfold HOTEL_EMISSION_FACTORS at h
  split_ifs at h <;> rw [Option.some_inj] at h <;> subst h
  · exact ⟨1500, by norm_num⟩
  · exact ⟨2500, by norm_num⟩
  · exact ⟨4000, by norm_num⟩

theorem meal_factor_isCent {c : String} {f : ℚ}
    (h : MEAL_EMISSION_FACTORS c = some f) : isCent f := by
  unfold MEAL_EMISSION_FACTORS at h
  split_ifs at h <;> rw [Option.some_inj] at h <;> subst h
  · exact ⟨150, by norm_num⟩
  · exact ⟨250, by norm_num⟩
  · exact ⟨400, by norm_num⟩

theorem addMealFactor_isCent {acc : ℚ} {c : String} {x : ℚ}
    (ha : isCent acc) (h : addMealFactor acc c = some x) : isCent x := by
  unfold addMealFactor at h
  split at h
  · rw [Option.some_inj] at h
    exact h ▸ ha
  · split at h
    · exact absurd h (by simp)
    · next f hf =>
      rw [Option.some_inj] at h
      exact h ▸ isCent_add ha (meal_factor_isCent hf)

theorem daily_meal_isCent {b l d : String} {dm : ℚ}
    (h : daily_meal_emission b l d = some dm) : isCent dm := by
  unfold daily_meal_emission at h
  split at h
  · exact absurd h (by simp)
  · next x hx =>
    split at h
    · exact absurd h (by simp)
    · next y hy =>
      exact addMealFactor_isCent
        (addMealFactor_isCent (addMealFactor_isCent isCent_zero hx) hy) h

theorem calcAccommodation_isCent :
    ∀ {stays : List Stay} {a : ℚ}, calcAccommodation stays = some a → isCent a := by
  intro stays
  induction stays with
  | nil =>
    intro a h
    unfold calcAccommodation at h
    rw [Option.some_inj] at h
    exact h ▸ isCent_zero
  | cons st rest ih =>
    intro a h
    unfold calcAccommodation at h
    split at h
    · exact absurd h (by simp)
    · next f hf =>
      split at h
      · exact absurd h (by simp)
      · next a0 ha0 =>
        rw [Option.some_inj] at h
        exact h ▸ isCent_add (isCent_natMul (hotel_factor_isCent hf) _) (ih ha0)

theorem calcMeals_isCent :
    ∀ {meals : List MealDay} {m : ℚ}, calcMeals meals = some m → isCent m := by
  intro meals
  induction meals with
  | nil =>
    intro m h
    unfold calcMeals at h
    rw [Option.some_inj] at h
    exact h ▸ isCent_zero
  | cons md rest ih =>
    intro m h
    unfold calcMeals at h
    split at h
    · exact absurd h (by simp)
    · next dm hdm =>
      split at h
      · exact absurd h (by simp)
      · next m0 hm0 =>
        rw [Option.some_inj] at h
        exact h ▸ isCent_add (isCent_natMul (daily_meal_isCent hdm) _) (ih hm0)

/-- The computation phase: the grand total is the sum of the three
subtotals, each subtotal is a whole number of cents, and the transport
subtotal is the sum of the rounded per-leg emissions. -/
theorem computeCalculation_spec {inp : Input} {c : CalcResult}
    (h : computeCalculation inp = some c) :
    c.total = c.transport + c.accommodation + c.meal ∧
      isCent c.transport ∧ isCent c.accommodation ∧ isCent c.meal ∧
      c.transport = (c.details.map TripDetail.emission).sum := by
  unfold computeCalculation at h
  split at h
  · exact absurd h (by simp)
  · next pr hpr =>
    split at h
    · exact absurd h (by simp)
    · next a ha =>
      split at h
      · exact absurd h (by simp)
      · next m hm =>
        rw [Option.some_inj] at h
        obtain ⟨hc, hs⟩ := calcTransport_spec hpr
        subst h
        exact ⟨rfl, hc, calcAccommodation_isCent ha, calcMeals_isCent hm, hs⟩

theorem computeCalculation_total_isCent {inp : Input} {c : CalcResult}
    (h : computeCalculation inp = some c) : isCent c.total := by
  obtain ⟨ht, h1, h2, h3, _⟩ := computeCalculation_spec h
  rw [ht]
  exact isCent_add (isCent_add h1 h2) h3


/-- Ledger invariant: a successful run of submissions appends exactly the
expected entries (in submission order) and adds exactly the sum of their
recorded grand totals to the running total. -/
theorem runCalcs_spec :
    ∀ (steps : List (Input × Meta × String)) (s s1 : SessionState),
      runCalcs s steps = some s1 →
      s1.emissions_data = s.emissions_data ++ expectedEntries steps ∧
        s1.emissions_data.length = s.emissions_data.length + steps.length ∧
        s1.total_emissions =
          s.total_emissions + ((expectedEntries steps).map Entry.total).sum := by
  intro steps
  induction steps with
  | nil =>
    intro s s1 h
    unfold runCalcs at h
    rw [Option.some_inj] at h
    subst h
    simp [expectedEntries]
  | cons step rest ih =>
    intro s s1 h
    obtain ⟨inp, m, ts⟩ := step
    unfold runCalcs at h
    split at h
    · exact absurd h (by simp)
    · next s0 hs0 =>
      unfold calcHandler at hs0
      split at hs0
      · exact absurd hs0 (by simp)
      · next c hc =>
        rw [Option.some_inj] at hs0
        obtain ⟨hd, hl, htot⟩ := ih _ _ h
        subst hs0
        have hexp : expectedEntries ((inp, m, ts) :: rest)
            = mkEntry m c ts :: expectedEntries rest := by
          simp only [expectedEntries, hc]
        have hround : (mkEntry m c ts).total = c.total :=
          pyRound2_eq_self (computeCalculation_total_isCent hc)
        refine ⟨?_, ?_, ?_⟩
        · rw [hd, hexp]
          simp [applyCalc]
        · rw [hl]
          simp [applyCalc]
          omega
        · rw [htot, hexp]
          simp [applyCalc, hround]
          ring

/-- Running-total invariant: a successful run adds exactly the sum of the
unrounded grand totals of its submissions. -/
theorem runCalcs_total :
    ∀ (steps : List (Input × Meta × String)) (s s1 : SessionState),
      runCalcs s steps = some s1 →
      s1.total_emissions = s.total_emissions +
        (steps.map fun st =>
          ((computeCalculation st.1).map CalcResult.total).getD 0).sum := by
  intro steps
  induction steps with
  | nil =>
    intro s s1 h
    unfold runCalcs at h
    rw [Option.some_inj] at h
    subst h
    simp
  | cons step rest ih =>
    intro s s1 h
    obtain ⟨inp, m, ts⟩ := step
    unfold runCalcs at h
    split at h
    · exact absurd h (by simp)
    · next s0 hs0 =>
      unfold calcHandler at hs0
      split at hs0
      · exact absurd hs0 (by simp)
      · next c hc =>
        rw [Option.some_inj] at hs0
        have htot := ih _ _ h
        subst hs0
        rw [htot]
        simp [applyCalc, hc]
        ring


/-- Metadata used in concrete witnesses. -/
def meta0 : Meta := ⟨"E1", "Alice", "R&D", "Conference", "2025-01-01", "2025-01-08"⟩

/-- The empty submission (no trips, stays or meals). -/
def inp0e : Input := ⟨[], [], []⟩

/-- The calculation result of the empty submission. -/
def czero : CalcResult := ⟨0, 0, 0, 0, []⟩

/-- A 1000 km gasoline-car trip with one passenger. -/
def trip_car : Trip := ⟨"VELLORE", "CHENNAI", "CAR - GASOLINE", 1, 1000⟩

/-- A submission exercising all three categories. -/
def inp1 : Input :=
  ⟨[trip_car], [⟨"DELHI", "BUDGET", 2⟩], [⟨"VEGAN", "OMNIVORE", "None", 3⟩]⟩

/-- The calculation result of `inp1`. -/
def calc1 : CalcResult :=
  ⟨120, 30, 16.5, 166.5, [⟨"VELLORE", "CHENNAI", "CAR - GASOLINE", 1000, 120⟩]⟩

/-- C1 counterexample: the code has no `max(passengers, 1)` guard.  With a
passenger count of 0 the transport loop fails (Python `ZeroDivisionError`)
instead of producing the claimed round(1000 × 0.12 / max(0,1), 2) = 120. -/
theorem C1_counterexample :
    calcTransport [⟨"VELLORE", "CHENNAI", "CAR - GASOLINE", 0, 1000⟩] = none ∧
      pyRound2 (1000 * (0.12 : ℚ) / ((max 0 1 : ℕ) : ℚ)) = 120 :=
  ⟨by with_unfolding_all rfl, by with_unfolding_all rfl⟩

/-- C1 (amended): for every trip leg with passenger count ≥ 1 (the input
widget enforces a minimum of 1), the per-leg emission equals
round(distance × factor / max(passengers, 1), 2); the passenger count 0
is not guarded and raises instead of behaving as 1. -/
theorem C1_per_leg_emission (d f : ℚ) (p : ℕ) (hp : 1 ≤ p) :
    trip_emission d f p = some (pyRound2 (d * f / ((max p 1 : ℕ) : ℚ))) := by
  have hp0 : p ≠ 0 := by omega
  have hm : max p 1 = p := by omega
  unfold trip_emission
  rw [if_neg hp0, hm]

/-- C1 witness: 1000 km at factor 0.12 with 4 passengers gives 30.00. -/
theorem C1_witness :
    trip_emission 1000 0.12 4 = some (pyRound2 (1000 * 0.12 / ((max 4 1 : ℕ) : ℚ))) ∧
      pyRound2 (1000 * (0.12 : ℚ) / ((max 4 1 : ℕ) : ℚ)) = 30 :=
  ⟨C1_per_leg_emission 1000 0.12 4 (by norm_num), by with_unfolding_all rfl⟩

/-- C2 counterexample: the unknown flight-class mode "FLIGHT - PREMIUM" is
not in the factor table, yet factor resolution silently returns the
medium-haul FLIGHT - FIRST factor 0.36 instead of failing. -/
theorem C2_counterexample :
    resolve_emission_factor "FLIGHT - PREMIUM" 1000 = some 0.36 ∧
      EMISSION_FACTORS "FLIGHT - PREMIUM" = none :=
  ⟨by with_unfolding_all rfl, by with_unfolding_all rfl⟩

/-- C2 (amended): an unrecognized non-flight mode fails loudly
(`KeyError`, i.e. `none`), but a mode string starting with "FLIGHT" that is
neither "FLIGHT - ECONOMY" nor "FLIGHT - BUSINESS" silently resolves to the
FLIGHT - FIRST factor for its distance band. -/
theorem C2_mode_resolution (mode : String) (d : ℚ) :
    (mode.data.take 6 ≠ "FLIGHT".data → EMISSION_FACTORS mode = none →
      resolve_emission_factor mode d = none) ∧
    (mode.data.take 6 = "FLIGHT".data → mode ≠ "FLIGHT - ECONOMY" →
      mode ≠ "FLIGHT - BUSINESS" →
      resolve_emission_factor mode d = tieredLookup "FLIGHT - FIRST" (bandOf d)) := by
  constructor
  · intro hpre hnone
    unfold resolve_emission_factor
    rw [if_neg hpre, hnone]
  · intro hpre h1 h2
    unfold resolve_emission_factor
    rw [if_pos hpre]
    unfold get_flight_emission_factor
    rw [if_neg h1, if_neg h2]

/-- C2 witness: "SCOOTER" fails loudly; "FLIGHT - PREMIUM" silently falls
through to the FLIGHT - FIRST band table. -/
theorem C2_witness :
    resolve_emission_factor "SCOOTER" 100 = none ∧
      resolve_emission_factor "FLIGHT - PREMIUM" 1000 =
        tieredLookup "FLIGHT - FIRST" (bandOf 1000) :=
  ⟨(C2_mode_resolution "SCOOTER" 100).1 (by decide) (by with_unfolding_all rfl),
    (C2_mode_resolution "FLIGHT - PREMIUM" 1000).2 (by decide) (by decide) (by decide)⟩

/-- C3: in every produced ledger entry the recorded grand total equals
round(transport + accommodation + meal, 2) computed from the recorded
(rounded) subtotals of the same entry. -/
theorem C3_total_consistency (inp : Input) (meta : Meta) (ts : String) (c : CalcResult)
    (h : computeCalculation inp = some c) :
    (mkEntry meta c ts).total =
      pyRound2 ((mkEntry meta c ts).transport + (mkEntry meta c ts).accommodation +
        (mkEntry meta c ts).meal) := by
  obtain ⟨ht, h1, h2, h3, _⟩ := computeCalculation_spec h
  show pyRound2 c.total =
    pyRound2 (pyRound2 c.transport + pyRound2 c.accommodation + pyRound2 c.meal)
  rw [pyRound2_eq_self h1, pyRound2_eq_self h2, pyRound2_eq_self h3, ht]

/-- C3 witness: a concrete submission with all three categories. -/
theorem C3_witness :
    (mkEntry meta0 calc1 "T").total =
      pyRound2 ((mkEntry meta0 calc1 "T").transport + (mkEntry meta0 calc1 "T").accommodation +
        (mkEntry meta0 calc1 "T").meal) :=
  C3_total_consistency inp1 meta0 "T" calc1 (by with_unfolding_all rfl)

/-- C4: the flight factor is selected from the short_haul band for
distance < 800, the medium_haul band for 800 ≤ distance < 3700, and the
long_haul band for distance ≥ 3700. -/
theorem C4_flight_bands (d : ℚ) (tc : String) :
    (d < 800 → get_flight_emission_factor d tc = flight_class_bands tc "short_haul") ∧
    (800 ≤ d → d < 3700 →
      get_flight_emission_factor d tc = flight_class_bands tc "medium_haul") ∧
    (3700 ≤ d → get_flight_emission_factor d tc = flight_class_bands tc "long_haul") := by
  have hg : get_flight_emission_factor d tc = flight_class_bands tc (bandOf d) := rfl
  refine ⟨?_, ?_, ?_⟩
  · intro h
    rw [hg]
    unfold bandOf
    rw [if_pos h]
  · intro h1 h2
    rw [hg]
    unfold bandOf
    rw [if_neg (not_lt.mpr h1), if_pos h2]
  · intro h
    rw [hg]
    unfold bandOf
    rw [if_neg (not_lt.mpr (by linarith)), if_neg (not_lt.mpr h)]

/-- C4 witness: one distance in each band. -/
theorem C4_witness :
    get_flight_emission_factor 500 "FLIGHT - ECONOMY" =
        flight_class_bands "FLIGHT - ECONOMY" "short_haul" ∧
      get_flight_emission_factor 1000 "FLIGHT - BUSINESS" =
        flight_class_bands "FLIGHT - BUSINESS" "medium_haul" ∧
      get_flight_emission_factor 5000 "FLIGHT - FIRST" =
        flight_class_bands "FLIGHT - FIRST" "long_haul" :=
  ⟨(C4_flight_bands 500 "FLIGHT - ECONOMY").1 (by norm_num),
    (C4_flight_bands 1000 "FLIGHT - BUSINESS").2.1 (by norm_num) (by norm_num),
    (C4_flight_bands 5000 "FLIGHT - FIRST").2.2 (by norm_num)⟩

/-- C5: after N successful submissions from the empty ledger the history
holds exactly N entries, in submission order, and the running total equals
the sum of the recorded grand totals (exactly, in exact arithmetic). -/
theorem C5_ledger (steps : List (Input × Meta × String)) (s1 : SessionState)
    (h : runCalcs initState steps = some s1) :
    s1.emissions_data.length = steps.length ∧
      s1.emissions_data = expectedEntries steps ∧
      s1.total_emissions = (s1.emissions_data.map Entry.total).sum := by
  obtain ⟨hd, hl, htot⟩ := runCalcs_spec steps initState s1 h
  have h0 : initState.emissions_data = [] := rfl
  have h0t : initState.total_emissions = 0 := rfl
  refine ⟨?_, ?_, ?_⟩
  · rw [hl, h0]
    simp
  · rw [hd, h0]
    simp
  · rw [htot, h0t, hd, h0]
    simp

/-- C5 witness: a single successful (empty) submission. -/
theorem C5_witness :
    (applyCalc initState czero meta0 "T").emissions_data.length =
        [(inp0e, meta0, "T")].length ∧
      (applyCalc initState czero meta0 "T").emissions_data =
        expectedEntries [(inp0e, meta0, "T")] ∧
      (applyCalc initState czero meta0 "T").total_emissions =
        ((applyCalc initState czero meta0 "T").emissions_data.map Entry.total).sum :=
  C5_ledger [(inp0e, meta0, "T")] (applyCalc initState czero meta0 "T")
    (by with_unfolding_all rfl)

/-- C6: the transport subtotal is the sum of the per-leg emissions rounded
leg by leg before summation, and this differs in general from rounding the
sum of the unrounded legs (two 2.5 km electric-car legs give 0.24, while
post-sum rounding would give 0.25). -/
theorem C6_round_then_sum :
    (∀ (trips : List Trip) (t : ℚ) (dets : List TripDetail),
        calcTransport trips = some (t, dets) →
        t = (dets.map TripDetail.emission).sum) ∧
      (∃ (trips : List Trip) (t : ℚ) (dets : List TripDetail),
        calcTransport trips = some (t, dets) ∧
          t ≠ pyRound2 ((trips.map fun tr =>
            tr.distance * ((resolve_emission_factor tr.mode tr.distance).getD 0) /
              (tr.passengers : ℚ)).sum)) := by
  constructor
  · intro trips t dets h
    exact (calcTransport_spec h).2
  · exact ⟨[⟨"A", "B", "CAR - ELECTRIC", 1, 2.5⟩, ⟨"A", "B", "CAR - ELECTRIC", 1, 2.5⟩],
      0.24,
      [⟨"A", "B", "CAR - ELECTRIC", 2.5, 0.12⟩, ⟨"A", "B", "CAR - ELECTRIC", 2.5, 0.12⟩],
      by with_unfolding_all rfl, by with_unfolding_all decide⟩

/-- C6 witness: a single gasoline-car leg. -/
theorem C6_witness :
    (120 : ℚ) =
      ([(⟨"VELLORE", "CHENNAI", "CAR - GASOLINE", 1000, 120⟩ : TripDetail)].map
        TripDetail.emission).sum :=
  C6_round_then_sum.1 [trip_car] 120
    [⟨"VELLORE", "CHENNAI", "CAR - GASOLINE", 1000, 120⟩] (by with_unfolding_all rfl)

/-- C7: if either city name is missing from the registry the distance is
the sentinel 0; otherwise it is the haversine distance rounded to two
decimals. -/
theorem C7_unknown_location (a b : String) :
    ((CITY_COORDINATES a = none ∨ CITY_COORDINATES b = none) →
      calculate_distance a b = 0) ∧
      (∀ ca cb : ℚ × ℚ, CITY_COORDINATES a = some ca → CITY_COORDINATES b = some cb →
        calculate_distance a b =
          pyRound2R (haversine_distance (ca.1 : ℝ) (ca.2 : ℝ) (cb.1 : ℝ) (cb.2 : ℝ))) := by
  constructor
  · intro h
    rcases h with h | h
    · unfold calculate_distance
      rw [h]
    · cases hx : CITY_COORDINATES a <;> unfold calculate_distance <;> rw [hx, h]
  · intro ca cb hca hcb
    unfold calculate_distance
    rw [hca, hcb]

/-- C7 witness: an unknown city gives 0; two known cities give the rounded
haversine distance. -/
theorem C7_witness :
    calculate_distance "ATLANTIS" "DELHI" = 0 ∧
      calculate_distance "VELLORE" "CHENNAI" =
        pyRound2R (haversine_distance ((12.9165 : ℚ) : ℝ) ((79.1325 : ℚ) : ℝ)
          ((13.0827 : ℚ) : ℝ) ((80.2707 : ℚ) : ℝ)) :=
  ⟨(C7_unknown_location "ATLANTIS" "DELHI").1 (Or.inl (by with_unfolding_all rfl)),
    (C7_unknown_location "VELLORE" "CHENNAI").2 (12.9165, 79.1325) (13.0827, 80.2707)
      (by with_unfolding_all rfl) (by with_unfolding_all rfl)⟩

theorem sin_half_neg_sq (x y : ℝ) :
    Real.sin ((x - y) / 2) ^ 2 = Real.sin ((y - x) / 2) ^ 2 := by
  rw [show (x - y) / 2 = -((y - x) / 2) by ring, Real.sin_neg]
  ring

theorem haversine_symm (lat1 lon1 lat2 lon2 : ℝ) :
    haversine_distance lat1 lon1 lat2 lon2 = haversine_distance lat2 lon2 lat1 lon1 := by
  unfold haversine_distance
  rw [sin_half_neg_sq (radians lat2) (radians lat1),
    sin_half_neg_sq (radians lon2) (radians lon1),
    mul_comm (Real.cos (radians lat1)) (Real.cos (radians lat2))]

/-- C8: `calculate_distance` is symmetric in its two city names (proved for
all name pairs, in particular for all registry members). -/
theorem C8_distance_symm (a b : String) :
    calculate_distance a b = calculate_distance b a := by
  cases hx : CITY_COORDINATES a <;> cases hy : CITY_COORDINATES b <;>
    simp only [calculate_distance, hx, hy]
  exact congrArg pyRound2R (haversine_symm _ _ _ _)

/-- C9: one submission is atomic with respect to the ledger: either the
computation phase fails and no new state is produced (the prior state is
untouched), or it succeeds and exactly one complete entry is appended. -/
theorem C9_atomic (s : SessionState) (inp : Input) (m : Meta) (ts : String) :
    (computeCalculation inp = none ∧ calcHandler s inp m ts = none) ∨
      (∃ c, computeCalculation inp = some c ∧
        calcHandler s inp m ts = some (applyCalc s c m ts) ∧
        (applyCalc s c m ts).emissions_data = s.emissions_data ++ [mkEntry m c ts] ∧
        (applyCalc s c m ts).emissions_data.length = s.emissions_data.length + 1) := by
  cases hc : computeCalculation inp with
  | none =>
    left
    refine ⟨rfl, ?_⟩
    unfold calcHandler
    rw [hc]
  | some c =>
    right
    refine ⟨c, rfl, ?_, rfl, ?_⟩
    · unfold calcHandler
      rw [hc]
    · simp [applyCalc]

/-- C10: a successful submission adds the unrounded grand total to the
running total while the appended entry stores the rounded grand total; over
any successful sequence the running total is the exact sum of the unrounded
grand totals. -/
theorem C10_running_total :
    (∀ (s : SessionState) (inp : Input) (m : Meta) (ts : String) (c : CalcResult),
        computeCalculation inp = some c →
        calcHandler s inp m ts = some (applyCalc s c m ts) ∧
          (applyCalc s c m ts).total_emissions = s.total_emissions + c.total ∧
          (mkEntry m c ts).total = pyRound2 c.total) ∧
      (∀ (steps : List (Input × Meta × String)) (s1 : SessionState),
        runCalcs initState steps = some s1 →
        s1.total_emissions = (steps.map fun st =>
          ((computeCalculation st.1).map CalcResult.total).getD 0).sum) := by
  constructor
  · intro s inp m ts c hc
    refine ⟨?_, rfl, rfl⟩
    unfold calcHandler
    rw [hc]
  · intro steps s1 h
    have h0 : initState.total_emissions = (0 : ℚ) := rfl
    rw [runCalcs_total steps initState s1 h, h0, zero_add]

/-- C10 witness: the empty submission from the empty ledger. -/
theorem C10_witness :
    (calcHandler initState inp0e meta0 "T" = some (applyCalc initState czero meta0 "T") ∧
      (applyCalc initState czero meta0 "T").total_emissions =
        initState.total_emissions + czero.total ∧
      (mkEntry meta0 czero "T").total = pyRound2 czero.total) ∧
      (applyCalc initState czero meta0 "T").total_emissions =
        ([(inp0e, meta0, "T")].map fun st =>
          ((computeCalculation st.1).map CalcResult.total).getD 0).sum :=
  ⟨C10_running_total.1 initState inp0e meta0 "T" czero (by with_unfolding_all rfl),
    C10_running_total.2 [(inp0e, meta0, "T")] (applyCalc initState czero meta0 "T")
      (by with_unfolding_all rfl)⟩

end EmissionsTracker
